import Mathlib

/-!
Verification of the schema catalog in `mongomodels.py`.

The repository declares a set of document schemas (mongoengine `Document`
subclasses): field types, required-ness, max lengths, `choices`
enumerations, `unique` / `unique_with` uniqueness constraints, secondary
indexes and shard keys.  We embed each class declaration as an
`EntitySchema` value, translated field by field from the source.

The storage engine that consumes these declarations (validate-on-write,
insert with duplicate-key rejection) is not part of the repository; it is
modelled from the specification of the write path (reject a record with a
`ValidationError` naming the offending field when a required field is
absent, a string exceeds its declared maximum length, or an enumerated
value is outside its allowed set; reject a write that would violate a
declared uniqueness constraint with a `DuplicateKeyError`).
-/

/-- A field value as stored in a document.  Object ids are modelled as
naturals, datetimes as naturals, and the free-form mapping payloads of
`DictField` as string-to-string association lists (the spec leaves dict
contents unvalidated beyond being a mapping). -/
inductive Value where
  | objId (n : Nat)
  | str (s : String)
  | int (i : Int)
  | bool (b : Bool)
  | date (n : Nat)
  | listStr (ss : List String)
  | listObjId (ns : List Nat)
  | listDict (ds : List (List (String × String)))
  | dictV (kvs : List (String × String))
  deriving DecidableEq, Repr

/-- The mongoengine field constructors used in `mongomodels.py`. -/
inductive FieldType where
  | objectIdField
  | stringField
  | intField
  | booleanField
  | dateTimeField
  | listField (elem : FieldType)
  | dictField
  deriving DecidableEq, Repr

/-- One field declaration: name, type, and the keyword arguments that
appear in the source (`required`, `max_length`, `choices`, `unique`,
`unique_with`). -/
structure FieldSpec where
  name : String
  ftype : FieldType
  required : Bool := false
  max_length : Option Nat := none
  choices : Option (List String) := none
  unique : Bool := false
  unique_with : List String := []
  deriving DecidableEq, Repr

/-- One `Document` subclass: its class name, field declarations in source
order, and the `meta` dictionary's `indexes` (kept as the raw strings of
the source, `#` and `-` prefixes included) and `shard_key`. -/
structure EntitySchema where
  name : String
  fields : List FieldSpec
  indexes : List (List String) := []
  shard_key : List String
  deriving DecidableEq, Repr

/-- A candidate document: an association list from field name to value. -/
def Record : Type := List (String × Value)

instance : DecidableEq Record := inferInstanceAs (DecidableEq (List (String × Value)))

instance : Membership Record (List Record) := inferInstanceAs (Membership (List (String × Value)) (List (List (String × Value))))

/-- Value of a field in a record, `none` when absent. -/
def Record.lookup (r : Record) (f : String) : Option Value :=
  (List.find? (fun kv => kv.1 == f) r).map Prod.snd

/-- Does a value fit a declared field type? -/
def Value.conformsTo : Value → FieldType → Bool
  | .objId _, .objectIdField => true
  | .str _, .stringField => true
  | .int _, .intField => true
  | .bool _, .booleanField => true
  | .date _, .dateTimeField => true
  | .listStr _, .listField .stringField => true
  | .listObjId _, .listField .objectIdField => true
  | .listDict _, .listField .dictField => true
  | .dictV _, .dictField => true
  | _, _ => false

/-- Modelled from the spec: the `max_length` check of validate-on-write
("a string field exceeds its declared maximum length"); for a list of
strings the bound applies to each element. -/
def strLenOk (v : Value) (ml : Option Nat) : Bool :=
  match ml, v with
  | none, _ => true
  | some n, .str s => decide (s.length ≤ n)
  | some n, .listStr ss => ss.all (fun s => decide (s.length ≤ n))
  | some _, _ => true

/-- Modelled from the spec: the `choices` check of validate-on-write
("an enumerated field's value is not in its allowed set"). -/
def choiceOk (v : Value) (cs : Option (List String)) : Bool :=
  match cs, v with
  | none, _ => true
  | some cl, .str s => cl.contains s
  | some _, _ => false

/-- The error taxonomy of the write path: `ValidationError` carries the
offending field name; `DuplicateKeyError` signals a violated uniqueness
constraint. -/
inductive WriteError where
  | validationError (field : String)
  | duplicateKeyError
  deriving DecidableEq, Repr

/-- Modelled from the spec: validate one field declaration against a
candidate record — required-ness, type conformance, max length, choices. -/
def checkField (r : Record) (fs : FieldSpec) : Except WriteError Unit :=
  match Record.lookup r fs.name with
  | none => if fs.required then .error (.validationError fs.name) else .ok ()
  | some v =>
    if Value.conformsTo v fs.ftype then
      if strLenOk v fs.max_length then
        if choiceOk v fs.choices then .ok ()
        else .error (.validationError fs.name)
      else .error (.validationError fs.name)
    else .error (.validationError fs.name)

/-- Modelled from the spec: validate every field declaration in order,
stopping at the first failure. -/
def checkFields : List FieldSpec → Record → Except WriteError Unit
  | [], _ => .ok ()
  | fs :: rest, r =>
    match checkField r fs with
    | .error e => .error e
    | .ok _ => checkFields rest r

/-- Modelled from the spec: validate-on-write for one entity schema. -/
def validateRecord (sc : EntitySchema) (r : Record) : Except WriteError Unit :=
  checkFields sc.fields r

/-- The uniqueness constraints an entity declares: the document id (the
storage engine's implicit primary key), plus one field set per `unique` /
`unique_with` declaration in the source. -/
def EntitySchema.uniqueSpecs (sc : EntitySchema) : List (List String) :=
  ["id"] :: sc.fields.filterMap (fun fs =>
    if fs.unique then some [fs.name]
    else if fs.unique_with.isEmpty then none
    else some (fs.name :: fs.unique_with))

/-- Do two records agree on every field of a uniqueness field set?
Absent fields compare as null, so two records both missing a field agree
on it (the document-store null semantics of unique indexes). -/
def matchesOn (key : List String) (s r : Record) : Bool :=
  key.all (fun f => decide (Record.lookup s f = Record.lookup r f))

/-- Attach a storage-assigned document id when the caller supplied none. -/
def assignId (store : List Record) (r : Record) : Record :=
  match Record.lookup r "id" with
  | some _ => r
  | none => ("id", Value.objId store.length) :: r

/-- Modelled from the spec: the write path `insert(entityType, record)` —
validate per the schema, then reject with `DuplicateKeyError` any write
that agrees with an already-stored record on some declared uniqueness
field set; otherwise store the record. -/
def insertRecord (sc : EntitySchema) (store : List Record) (r : Record) : Except WriteError (List Record) :=
  match validateRecord sc r with
  | .error e => .error e
  | .ok _ =>
    if store.any (fun old => sc.uniqueSpecs.any (fun spec => matchesOn spec old r)) then
      .error .duplicateKeyError
    else
      .ok (assignId store r :: store)

/-- `FileAction.MODES` in the source: the five allowed `mode` symbols. -/
def FileAction.MODES : List String := ["A", "M", "D", "C", "T"]

/-- The `FileAction` class of `mongomodels.py`. -/
def FileActionSchema : EntitySchema := {
  name := "FileAction"
  fields := [
    { name := "projectId", ftype := .objectIdField, required := true },
    { name := "fileId", ftype := .objectIdField, required := true },
    { name := "revisionHash", ftype := .stringField, max_length := some 50, required := true,
      unique_with := ["projectId", "fileId"] },
    { name := "mode", ftype := .stringField, max_length := some 1, required := true,
      choices := some FileAction.MODES },
    { name := "sizeAtCommit", ftype := .intField },
    { name := "linesAdded", ftype := .intField },
    { name := "linesDeleted", ftype := .intField },
    { name := "isBinary", ftype := .booleanField },
    { name := "oldFilePathId", ftype := .objectIdField },
    { name := "hunkIds", ftype := .listField .objectIdField }]
  indexes := [["projectId"], ["projectId", "revisionHash"]]
  shard_key := ["revisionHash", "projectId", "fileId"] }

/-- The `Hunk` class of `mongomodels.py` (no field-level uniqueness
declaration; its only key is the document id). -/
def HunkSchema : EntitySchema := {
  name := "Hunk"
  fields := [
    { name := "new_start", ftype := .intField, required := true },
    { name := "new_lines", ftype := .intField, required := true },
    { name := "old_start", ftype := .intField, required := true },
    { name := "old_lines", ftype := .intField, required := true },
    { name := "content", ftype := .stringField, required := true }]
  indexes := [["#id"]]
  shard_key := ["id"] }

/-- The `File` class of `mongomodels.py`. -/
def FileSchema : EntitySchema := {
  name := "File"
  fields := [
    { name := "projectId", ftype := .objectIdField, required := true },
    { name := "path", ftype := .stringField, max_length := some 300, required := true,
      unique_with := ["projectId"] },
    { name := "name", ftype := .stringField, max_length := some 100, required := true }]
  indexes := [["projectId"]]
  shard_key := ["path", "projectId"] }

/-- The `Tag` class of `mongomodels.py`. -/
def TagSchema : EntitySchema := {
  name := "Tag"
  fields := [
    { name := "projectId", ftype := .objectIdField, required := true, unique_with := ["name"] },
    { name := "name", ftype := .stringField, max_length := some 150, required := true },
    { name := "message", ftype := .stringField },
    { name := "taggerId", ftype := .objectIdField },
    { name := "date", ftype := .dateTimeField },
    { name := "offset", ftype := .intField }]
  indexes := [["projectId"]]
  shard_key := ["projectId", "name"] }

/-- The `People` class of `mongomodels.py`. -/
def PeopleSchema : EntitySchema := {
  name := "People"
  fields := [
    { name := "email", ftype := .stringField, max_length := some 150, required := true,
      unique_with := ["name"] },
    { name := "name", ftype := .stringField, max_length := some 150, required := true },
    { name := "username", ftype := .stringField, max_length := some 300 }]
  shard_key := ["email", "name"] }

/-- The `Project` class of `mongomodels.py`. -/
def ProjectSchema : EntitySchema := {
  name := "Project"
  fields := [
    { name := "url", ftype := .stringField, max_length := some 400, required := true,
      unique := true },
    { name := "name", ftype := .stringField, max_length := some 100, required := true },
    { name := "repositoryType", ftype := .stringField, max_length := some 15 },
    { name := "issue_urls", ftype := .listField .stringField },
    { name := "mailing_urls", ftype := .listField .stringField }]
  indexes := [["#url"]]
  shard_key := ["url"] }

/-- The `Commit` class of `mongomodels.py`. -/
def CommitSchema : EntitySchema := {
  name := "Commit"
  fields := [
    { name := "projectId", ftype := .objectIdField, required := true,
      unique_with := ["revisionHash"] },
    { name := "revisionHash", ftype := .stringField, max_length := some 50, required := true },
    { name := "branches", ftype := .listField .stringField, max_length := some 500 },
    { name := "tagIds", ftype := .listField .objectIdField },
    { name := "parents", ftype := .listField .stringField, max_length := some 50 },
    { name := "authorId", ftype := .objectIdField },
    { name := "authorDate", ftype := .dateTimeField },
    { name := "authorOffset", ftype := .intField },
    { name := "committerId", ftype := .objectIdField },
    { name := "committerDate", ftype := .dateTimeField },
    { name := "committerOffset", ftype := .intField },
    { name := "message", ftype := .stringField },
    { name := "fileActionIds", ftype := .listField .objectIdField }]
  indexes := [["projectId"]]
  shard_key := ["projectId", "revisionHash"] }

/-- `Commit.__str__` in the source: returns the empty string for every
commit record, whatever its fields hold. -/
def Commit.strOf (_r : Record) : String := ""

/-- The `TestState` class of `mongomodels.py`. -/
def TestStateSchema : EntitySchema := {
  name := "TestState"
  fields := [
    { name := "file_id", ftype := .objectIdField, required := true,
      unique_with := ["commit_id", "long_name"] },
    { name := "commit_id", ftype := .objectIdField, required := true },
    { name := "long_name", ftype := .stringField, required := true },
    { name := "file_type", ftype := .stringField },
    { name := "depends_on", ftype := .listField .objectIdField },
    { name := "direct_imp", ftype := .listField .objectIdField },
    { name := "mock_cut_dep", ftype := .listField .objectIdField },
    { name := "mocked_modules", ftype := .listField .objectIdField },
    { name := "uses_mock", ftype := .booleanField },
    { name := "error", ftype := .booleanField }]
  indexes := [["commit_id"]]
  shard_key := ["file_id", "commit_id", "long_name"] }

/-- The `Issue` class of `mongomodels.py`.  Note that `system_id` and
`project_id` carry `unique_with` but not `required`. -/
def IssueSchema : EntitySchema := {
  name := "Issue"
  fields := [
    { name := "system_id", ftype := .stringField, unique_with := ["project_id"] },
    { name := "project_id", ftype := .objectIdField },
    { name := "title", ftype := .stringField },
    { name := "desc", ftype := .stringField },
    { name := "created_at", ftype := .dateTimeField },
    { name := "updated_at", ftype := .dateTimeField },
    { name := "creator_id", ftype := .objectIdField },
    { name := "reporter_id", ftype := .objectIdField },
    { name := "issue_type", ftype := .stringField },
    { name := "priority", ftype := .stringField },
    { name := "status", ftype := .stringField },
    { name := "affects_versions", ftype := .listField .stringField },
    { name := "components", ftype := .listField .stringField },
    { name := "labels", ftype := .listField .stringField },
    { name := "resolution", ftype := .stringField },
    { name := "fix_versions", ftype := .listField .stringField },
    { name := "assignee", ftype := .objectIdField },
    { name := "issue_links", ftype := .listField .dictField },
    { name := "original_time_estimate", ftype := .intField },
    { name := "environment", ftype := .stringField }]
  indexes := [["system_id"], ["project_id"]]
  shard_key := ["system_id", "project_id"] }

/-- `Event.STATI` in the source: the enumerated event kinds, each paired
with its documented meaning. -/
def Event.STATI : List (String × String) := [
  ("created", "The issue was created by the actor."),
  ("closed", "The issue was closed by the actor."),
  ("reopened", "The issue was reopened by the actor."),
  ("subscribed", "The actor subscribed to receive notifications for an issue."),
  ("merged", "The issue was merged by the actor."),
  ("referenced", "The issue was referenced from a commit message."),
  ("mentioned", "The actor was mentioned in an issue body."),
  ("assigned", "The issue was assigned to the actor."),
  ("unassigned", "The actor was unassigned from the issue."),
  ("labeled", "A label was added to the issue."),
  ("unlabeled", "A label was removed from the issue."),
  ("milestoned", "The issue was added to a milestone."),
  ("demilestoned", "The issue was removed from a milestone."),
  ("renamed", "The issue title was changed."),
  ("locked", "The issue was locked by the actor."),
  ("unlocked", "The issue was unlocked by the actor."),
  ("head_ref_deleted", "The pull requests branch was deleted."),
  ("head_ref_restored", "The pull requests branch was restored."),
  ("description", "The description was changed."),
  ("priority", "The issue was added to a milestone."),
  ("status", "The status was changed."),
  ("resolution", "The resolution was changed."),
  ("issuetype", "The issuetype was changed."),
  ("environment", "The environment was changed."),
  ("timeoriginalestimate", "The original time estimation for fixing the issue was changed."),
  ("version", "The affected versions was changed."),
  ("component", "The component list was changed."),
  ("labels", "The labels of the issue were changed."),
  ("fix version", "The fix versions of the issue were changed."),
  ("link", "Issuelinks were added or deleted."),
  ("attachment", "The attachments of the issue were changed."),
  ("release note", "A release note was changed."),
  ("remoteissuelink", "A remote link was added to the issue."),
  ("comment", "A comment was deleted or added to the issue."),
  ("hadoop flags", "Hadoop flags were change to the issue."),
  ("timeestimate", "Time estimation was changed in the issue."),
  ("tags", "Tags of the issue were changed.")]

/-- The allowed `status` values of an `Event`: the first component of each
`STATI` pair (how mongoengine reads a tuple-of-pairs `choices`). -/
def Event.allowedStati : List String := Event.STATI.map Prod.fst

/-- The `Event` class of `mongomodels.py`. -/
def EventSchema : EntitySchema := {
  name := "Event"
  fields := [
    { name := "system_id", ftype := .stringField, unique := true },
    { name := "issue_id", ftype := .objectIdField },
    { name := "created_at", ftype := .dateTimeField },
    { name := "status", ftype := .stringField, max_length := some 50,
      choices := some Event.allowedStati },
    { name := "author_id", ftype := .objectIdField },
    { name := "old_value", ftype := .stringField },
    { name := "new_value", ftype := .stringField }]
  indexes := [["issue_id"], ["#system_id"], ["issue_id", "-created_at"]]
  shard_key := ["system_id"] }

/-- The `IssueComment` class of `mongomodels.py`. -/
def IssueCommentSchema : EntitySchema := {
  name := "IssueComment"
  fields := [
    { name := "system_id", ftype := .intField, unique := true },
    { name := "issue_id", ftype := .objectIdField },
    { name := "created_at", ftype := .dateTimeField },
    { name := "author_id", ftype := .objectIdField },
    { name := "comment", ftype := .stringField }]
  indexes := [["issue_id"], ["#system_id"], ["issue_id", "-created_at"]]
  shard_key := ["system_id"] }

/-- The `Import` class of `mongomodels.py`. -/
def ImportSchema : EntitySchema := {
  name := "Import"
  fields := [
    { name := "commitId", ftype := .objectIdField, required := true, unique_with := ["fileId"] },
    { name := "fileId", ftype := .objectIdField, required := true, unique_with := ["commitId"] },
    { name := "imports", ftype := .listField .stringField, max_length := some 300 }]
  indexes := [["commitId"], ["fileId"]]
  shard_key := ["commitId", "fileId"] }

/-- The `NodeTypeCount` class of `mongomodels.py`. -/
def NodeTypeCountSchema : EntitySchema := {
  name := "NodeTypeCount"
  fields := [
    { name := "commitId", ftype := .objectIdField, required := true, unique_with := ["fileId"] },
    { name := "fileId", ftype := .objectIdField, required := true, unique_with := ["commitId"] },
    { name := "nodeCount", ftype := .intField },
    { name := "nodeTypeCounts", ftype := .dictField }]
  indexes := [["commitId"], ["fileId"]]
  shard_key := ["commitId", "fileId"] }

/-- The `Document` subclasses declared in `mongomodels.py`, in source
order. -/
inductive EntityType where
  | FileAction
  | Hunk
  | File
  | Tag
  | People
  | Project
  | Commit
  | TestState
  | Issue
  | Event
  | IssueComment
  | Import
  | NodeTypeCount
  deriving DecidableEq, Repr, Fintype

/-- The schema each entity type declares. -/
def schemaOf : EntityType → EntitySchema
  | .FileAction => FileActionSchema
  | .Hunk => HunkSchema
  | .File => FileSchema
  | .Tag => TagSchema
  | .People => PeopleSchema
  | .Project => ProjectSchema
  | .Commit => CommitSchema
  | .TestState => TestStateSchema
  | .Issue => IssueSchema
  | .Event => EventSchema
  | .IssueComment => IssueCommentSchema
  | .Import => ImportSchema
  | .NodeTypeCount => NodeTypeCountSchema

/-- The schema catalog: every `Document` subclass the module defines. -/
def catalog : List EntityType :=
  [.FileAction, .Hunk, .File, .Tag, .People, .Project, .Commit, .TestState,
   .Issue, .Event, .IssueComment, .Import, .NodeTypeCount]

/-- The declared uniqueness key of each entity, read off its `unique` /
`unique_with` declarations (the field carrying the declaration followed by
its `unique_with` list).  `Hunk` declares none, so its key is the document
id alone. -/
def uniquenessKey : EntityType → List String
  | .FileAction => ["revisionHash", "projectId", "fileId"]
  | .Hunk => ["id"]
  | .File => ["path", "projectId"]
  | .Tag => ["projectId", "name"]
  | .People => ["email", "name"]
  | .Project => ["url"]
  | .Commit => ["projectId", "revisionHash"]
  | .TestState => ["file_id", "commit_id", "long_name"]
  | .Issue => ["system_id", "project_id"]
  | .Event => ["system_id"]
  | .IssueComment => ["system_id"]
  | .Import => ["commitId", "fileId"]
  | .NodeTypeCount => ["commitId", "fileId"]

/-- A `People` document, with the source's field set. -/
structure PeopleRec where
  email : String
  name : String
  username : Option String
  deriving DecidableEq, Repr

/-- The identity string of `People.__hash__` in the source: the
concatenation `self.name + self.email`. -/
def PeopleRec.identKey (p : PeopleRec) : String := p.name ++ p.email

/-- `People.__hash__` in the source: the hash of the concatenation
`self.name + self.email` (the hash function itself lives in the language
runtime; any deterministic string hash represents it). -/
def PeopleRec.hashVal (p : PeopleRec) : UInt64 := p.identKey.hash

/-- A `FileAction` candidate record holding exactly the required fields
(`projectId`, `fileId`, `revisionHash`) plus a `mode`. -/
def mkFileAction (pid fid : Nat) (rev m : String) : Record :=
  [("projectId", Value.objId pid), ("fileId", Value.objId fid),
   ("revisionHash", Value.str rev), ("mode", Value.str m)]

/-- A `FileAction` candidate record with an `oldFilePathId` attached. -/
def mkFileActionOld (pid fid : Nat) (rev m : String) (oldId : Nat) : Record :=
  [("projectId", Value.objId pid), ("fileId", Value.objId fid),
   ("revisionHash", Value.str rev), ("mode", Value.str m),
   ("oldFilePathId", Value.objId oldId)]

/-- An `Event` candidate record with a `system_id` and a `status`. -/
def mkEvent (sysId s : String) : Record :=
  [("system_id", Value.str sysId), ("status", Value.str s)]

/-- The commit of the concrete scenario: `projectId P1`,
`revisionHash "abc123"`. -/
def commitRec : Record :=
  [("projectId", Value.objId 1), ("revisionHash", Value.str "abc123")]

/-- The same commit as the store holds it after the first insert (the
storage-assigned id attached). -/
def commitStored : Record := ("id", Value.objId 0) :: commitRec

/-- An `Issue` candidate record with no fields at all: in particular both
uniqueness-key fields `system_id` and `project_id` are absent. -/
def issueEmptyRec : Record := []

/-- Helper: the uniqueness key read off each entity's declarations is one
of the uniqueness field sets the insert path checks. -/
theorem uniquenessKey_mem_uniqueSpecs :
    ∀ e : EntityType, uniquenessKey e ∈ (schemaOf e).uniqueSpecs := by decide

/-- Claim C1: for every entity type in the catalog, a first insert of a
valid record into an empty store succeeds, and an insert of a record whose
declared uniqueness-key field values are identical to those of an
already-stored record is rejected with `DuplicateKeyError`. -/
theorem insert_duplicate_key_rejected :
    ∀ (e : EntityType) (r : Record),
      validateRecord (schemaOf e) r = .ok () →
      (insertRecord (schemaOf e) [] r).isOk = true ∧
      ∀ (store : List Record) (s : Record), s ∈ store →
        matchesOn (uniquenessKey e) s r = true →
        insertRecord (schemaOf e) store r = .error .duplicateKeyError := by
  intro e r hval
  constructor
  · unfold insertRecord
    rw [hval]
    simp [Except.isOk, Except.toBool]
  · intro store s hs hm
    unfold insertRecord
    rw [hval]
    have hany : store.any
        (fun old => (schemaOf e).uniqueSpecs.any (fun spec => matchesOn spec old r)) = true := by
      rw [List.any_eq_true]
      refine ⟨s, hs, ?_⟩
      rw [List.any_eq_true]
      exact ⟨uniquenessKey e, uniquenessKey_mem_uniqueSpecs e, hm⟩
    simp [hany]

/-- Witness for C1: the concrete scenario of the spec — a first
`Commit{projectId: P1, revisionHash: "abc123"}` insert succeeds, and the
identical second insert fails with `DuplicateKeyError`. -/
theorem insert_duplicate_key_rejected_witness :
    (insertRecord (schemaOf .Commit) [] commitRec).isOk = true ∧
    insertRecord (schemaOf .Commit) [commitStored] commitRec = .error .duplicateKeyError := by
  have h := insert_duplicate_key_rejected .Commit commitRec (by rfl)
  exact ⟨h.1, h.2 [commitStored] commitStored (by simp) (by rfl)⟩

/-- Claim C2: the declared shard key of every entity contains every field
of that entity's declared uniqueness key. -/
theorem shard_key_superset_of_uniqueness_key :
    ∀ e : EntityType, uniquenessKey e ⊆ (schemaOf e).shard_key := by decide

/-- Witness for C2 at a concrete entity and field: `projectId` belongs to
the `FileAction` uniqueness key, hence to its shard key. -/
theorem shard_key_superset_of_uniqueness_key_witness :
    "projectId" ∈ (schemaOf EntityType.FileAction).shard_key :=
  shard_key_superset_of_uniqueness_key .FileAction (by decide)

/-- Helper: validation of a `FileAction` record with the three required
fields present and a candidate `mode`, as a case split on the `mode`
checks (`max_length 1`, then the `MODES` enumeration). -/
theorem validate_fileAction_eq (pid fid : Nat) (rev m : String) :
    validateRecord FileActionSchema (mkFileAction pid fid rev m) =
      if rev.length ≤ 50 then
        if m.length ≤ 1 then
          if m ∈ FileAction.MODES then .ok () else .error (.validationError "mode")
        else .error (.validationError "mode")
      else .error (.validationError "revisionHash") := by
  simp [validateRecord, checkFields, checkField, mkFileAction, FileActionSchema,
    Record.lookup, strLenOk, choiceOk, Value.conformsTo, List.find?, FileAction.MODES]
  split_ifs <;> simp_all

/-- Claim C3: with the required fields `projectId`, `fileId` and
`revisionHash` present and valid, a `FileAction` validates exactly when
its `mode` lies in the five-symbol enumeration `{A, M, D, C, T}`; any
other `mode` fails with a `ValidationError` naming `mode`. -/
theorem fileAction_mode_validation :
    ∀ (pid fid : Nat) (rev m : String), rev.length ≤ 50 →
      (m ∈ FileAction.MODES →
        validateRecord FileActionSchema (mkFileAction pid fid rev m) = .ok ()) ∧
      (m ∉ FileAction.MODES →
        validateRecord FileActionSchema (mkFileAction pid fid rev m) =
          .error (.validationError "mode")) := by
  intro pid fid rev m hrev
  constructor
  · intro hm
    simp only [FileAction.MODES, List.mem_cons, List.not_mem_nil, or_false] at hm
    rcases hm with rfl | rfl | rfl | rfl | rfl <;>
      simp [validate_fileAction_eq, FileAction.MODES, hrev] <;> decide
  · intro hm
    rw [validate_fileAction_eq, if_pos hrev]
    by_cases hl : m.length ≤ 1
    · rw [if_pos hl, if_neg hm]
    · rw [if_neg hl]

/-- Witness for C3: the valid mode `"M"` is accepted and the invalid mode
`"X"` is rejected, all other required fields held fixed and valid. -/
theorem fileAction_mode_validation_witness :
    validateRecord FileActionSchema (mkFileAction 1 2 "abc123" "M") = .ok () ∧
    validateRecord FileActionSchema (mkFileAction 1 2 "abc123" "X") =
      .error (.validationError "mode") :=
  ⟨(fileAction_mode_validation 1 2 "abc123" "M" (by decide)).1 (by decide),
   (fileAction_mode_validation 1 2 "abc123" "X" (by decide)).2 (by decide)⟩

/-- Claim C4: the `oldFilePathId`/Copy-Move convention is not enforced by
validation — every mode validates with `oldFilePathId` absent, and a
record carrying `oldFilePathId` under a non-Copy/Move mode (`A`, `D`,
`T`) validates as well. -/
theorem fileAction_convention_not_enforced :
    validateRecord FileActionSchema (mkFileAction 1 2 "abc123" "C") = .ok () ∧
    validateRecord FileActionSchema (mkFileAction 1 2 "abc123" "M") = .ok () ∧
    validateRecord FileActionSchema (mkFileAction 1 2 "abc123" "A") = .ok () ∧
    validateRecord FileActionSchema (mkFileAction 1 2 "abc123" "D") = .ok () ∧
    validateRecord FileActionSchema (mkFileAction 1 2 "abc123" "T") = .ok () ∧
    validateRecord FileActionSchema (mkFileActionOld 1 2 "abc123" "A" 9) = .ok () ∧
    validateRecord FileActionSchema (mkFileActionOld 1 2 "abc123" "D" 9) = .ok () ∧
    validateRecord FileActionSchema (mkFileActionOld 1 2 "abc123" "T" 9) = .ok () :=
  ⟨rfl, rfl, rfl, rfl, rfl, rfl, rfl, rfl⟩

/-- Claim C5: two `People` records with the same `name` and the same
`email` have equal identity strings and equal hashes under the identity
rule of `People.__hash__`, whatever their `username` fields hold. -/
theorem people_same_name_email_hash_equal :
    ∀ (n em : String) (u₁ u₂ : Option String),
      (PeopleRec.mk em n u₁).identKey = (PeopleRec.mk em n u₂).identKey ∧
      (PeopleRec.mk em n u₁).hashVal = (PeopleRec.mk em n u₂).hashVal := by
  intro n em u₁ u₂
  exact ⟨rfl, rfl⟩

/-- Helper: validation of an `Event` record with a `system_id` and a
candidate `status`, as a case split on the `status` checks
(`max_length 50`, then the `STATI` enumeration). -/
theorem validate_event_eq (sysId s : String) :
    validateRecord EventSchema (mkEvent sysId s) =
      if s.length ≤ 50 then
        if s ∈ Event.allowedStati then .ok () else .error (.validationError "status")
      else .error (.validationError "status") := by
  simp [validateRecord, checkFields, checkField, mkEvent, EventSchema,
    Record.lookup, strLenOk, choiceOk, Value.conformsTo, List.find?]
  split_ifs <;> simp_all

/-- Claim C6: an `Event` whose `status` is not one of the enumerated
event kinds of `Event.STATI` fails validation with a `ValidationError`
naming `status`. -/
theorem event_unknown_status_rejected :
    ∀ (sysId s : String), s ∉ Event.allowedStati →
      validateRecord EventSchema (mkEvent sysId s) = .error (.validationError "status") := by
  intro sysId s hs
  rw [validate_event_eq]
  by_cases hl : s.length ≤ 50
  · rw [if_pos hl, if_neg hs]
  · rw [if_neg hl]

/-- Witness for C6: the unknown status string `"bogus"` is rejected. -/
theorem event_unknown_status_rejected_witness :
    validateRecord EventSchema (mkEvent "E1" "bogus") = .error (.validationError "status") :=
  event_unknown_status_rejected "E1" "bogus" (by decide)

/-- Counterexample to C7 as stated: the catalog does not hold twelve
record types. -/
theorem catalog_not_twelve : ¬ (catalog.length = 12) := by decide

/-- Claim C7 (amended): the schema catalog consists of exactly thirteen
independently-addressable record types, pairwise distinct and each mapped
to its own logical collection (pairwise distinct class names). -/
theorem catalog_thirteen_collections :
    catalog.length = 13 ∧ catalog.Nodup ∧
      (catalog.map (fun e => (schemaOf e).name)).Nodup := by decide

/-- Claim C8: an `Issue` record in which every field — in particular both
uniqueness-key fields `system_id` and `project_id` — is absent passes
validation, even though `(system_id, project_id)` is the declared
uniqueness key of `Issue`. -/
theorem issue_key_fields_not_required :
    validateRecord IssueSchema issueEmptyRec = .ok () ∧
    uniquenessKey EntityType.Issue = ["system_id", "project_id"] :=
  ⟨rfl, rfl⟩

/-- Claim C9: the concatenation-based `People` identity rule conflates
distinct `(name, email)` pairs — `name = "ab", email = "c"` and
`name = "a", email = "bc"` hash identically while the pairs differ. -/
theorem people_hash_collision :
    (PeopleRec.mk "c" "ab" none).hashVal = (PeopleRec.mk "bc" "a" none).hashVal ∧
    ((PeopleRec.mk "c" "ab" none).name, (PeopleRec.mk "c" "ab" none).email) ≠
      ((PeopleRec.mk "bc" "a" none).name, (PeopleRec.mk "bc" "a" none).email) :=
  ⟨rfl, by decide⟩

/-- Claim C10: `Commit.__str__` yields the empty string for every commit
record, regardless of its field values. -/
theorem commit_str_empty : ∀ r : Record, Commit.strOf r = "" := by
  intro r
  rfl
